import Mathlib

/-!
Verification of the kAIs knowledge package (scope model, fact store, graph
router) against its natural-language specification.  The Python sources in
`packages/knowledge/src/knowledge/{models,store,router}.py` are shallowly
embedded: stateful methods become explicit state-passing functions, Python
dicts become association lists with insertion-order semantics, datetimes
become natural numbers, floats become rationals, and raised exceptions
become `Except` results.
-/

namespace Knowledge

/-- models.py: `ScopeLevel` enumeration. -/
inductive ScopeLevel where
  | platform
  | realm
  | formation
  | cell
deriving DecidableEq, Repr, BEq

/-- models.py: `KnowledgeScope` — a level plus optional identifiers. -/
structure KnowledgeScope where
  level : ScopeLevel
  realm_id : Option String := none
  formation_id : Option String := none
  cell_id : Option String := none
deriving DecidableEq, Repr

/-- models.py: `FactSourceType` enumeration. -/
inductive FactSourceType where
  | mission_extraction
  | experiment
  | user_input
  | promoted
  | explicit_remember
deriving DecidableEq, Repr

/-- models.py: `FactSource`. -/
structure FactSource where
  type : FactSourceType
  mission_id : Option String := none
  experiment_id : Option String := none
deriving DecidableEq, Repr

/-- models.py: `Fact`.  `datetime` is modelled as `Nat`, `float` as `Rat`. -/
structure Fact where
  id : String
  content : String
  scope : KnowledgeScope
  source : FactSource
  confidence : Rat
  valid_from : Nat
  valid_until : Option Nat := none
  tags : List String := []
deriving DecidableEq, Repr

/-- models.py: `AddFactRequest`. -/
structure AddFactRequest where
  content : String
  scope : KnowledgeScope
  source : FactSource
  confidence : Rat := 1/2
  tags : List String := []
deriving DecidableEq, Repr

/-- models.py: `SearchRequest`.  `max_results` is a Python `int`, hence `Int`
(negative values are representable and flow into the final slice). -/
structure SearchRequest where
  query : String
  scope : KnowledgeScope
  max_results : Int := 20
  min_confidence : Rat := 0
  include_invalidated : Bool := false
deriving DecidableEq, Repr

/-- store.py: `SCOPE_ORDER` list. -/
def SCOPE_ORDER : List ScopeLevel :=
  [ScopeLevel.platform, ScopeLevel.realm, ScopeLevel.formation, ScopeLevel.cell]

/-- store.py: `SCOPE_ORDER.index(level)`. -/
def levelIndex (l : ScopeLevel) : Nat := SCOPE_ORDER.indexOf l

/-- store.py: `is_visible(fact_scope, query_scope)`, translated clause by
clause from the Python if-chain. -/
def is_visible (fact_scope query_scope : KnowledgeScope) : Bool :=
  let fact_level := levelIndex fact_scope.level
  let query_level := levelIndex query_scope.level
  if fact_level < query_level then true
  else if query_level < fact_level then false
  else if fact_scope.level = ScopeLevel.platform then true
  else if fact_scope.level = ScopeLevel.realm then
    fact_scope.realm_id == query_scope.realm_id
  else if fact_scope.level = ScopeLevel.formation then
    fact_scope.realm_id == query_scope.realm_id &&
      fact_scope.formation_id == query_scope.formation_id
  else if fact_scope.level = ScopeLevel.cell then
    fact_scope.realm_id == query_scope.realm_id &&
      fact_scope.formation_id == query_scope.formation_id &&
      fact_scope.cell_id == query_scope.cell_id
  else false

/-- Reference definition of visibility written from the specification text:
strictly more general level means visible, strictly more specific means not
visible, and at equal levels the identifiers from `realm` up to and including
that level must be pairwise equal (platform scopes are always mutually
visible). -/
def spec_is_visible (fact_scope query_scope : KnowledgeScope) : Bool :=
  if levelIndex fact_scope.level < levelIndex query_scope.level then true
  else if levelIndex query_scope.level < levelIndex fact_scope.level then false
  else
    match fact_scope.level with
    | ScopeLevel.platform => true
    | ScopeLevel.realm => fact_scope.realm_id == query_scope.realm_id
    | ScopeLevel.formation =>
        fact_scope.realm_id == query_scope.realm_id &&
          fact_scope.formation_id == query_scope.formation_id
    | ScopeLevel.cell =>
        fact_scope.realm_id == query_scope.realm_id &&
          fact_scope.formation_id == query_scope.formation_id &&
          fact_scope.cell_id == query_scope.cell_id

/-! ## Python primitives -/

/-- Python `str.lower()` (ASCII-faithful). -/
def strLower (s : String) : String := String.mk (s.data.map Char.toLower)

/-- Worker for `pySplit`: accumulate the current word (reversed) and flush
it at whitespace and at the end. -/
def pySplitChars : List Char → List Char → List String
  | acc, [] => if acc = [] then [] else [String.mk acc.reverse]
  | acc, c :: rest =>
      if c.isWhitespace then
        if acc = [] then pySplitChars [] rest
        else String.mk acc.reverse :: pySplitChars [] rest
      else pySplitChars (c :: acc) rest

/-- Python `str.split()` with no argument: split on whitespace runs,
discarding empty pieces. -/
def pySplit (s : String) : List String := pySplitChars [] s.data

/-- Python `sep.join(parts)`. -/
def joinSep (sep : String) : List String → String
  | [] => ""
  | [x] => x
  | x :: rest => x ++ sep ++ joinSep sep rest

/-- Membership of `needle` as a contiguous run inside `hay`
(Python's `needle in hay` on strings). -/
def charsContain (needle : List Char) : List Char → Bool
  | [] => needle.isEmpty
  | c :: rest => needle.isPrefixOf (c :: rest) || charsContain needle rest

/-- Python `needle in hay` for strings. -/
def strContains (hay needle : String) : Bool := charsContain needle.data hay.data

/-- Python `lst[:n]` for an `int` bound `n`: nonnegative bounds keep the
first `n` elements, a negative bound `-k` drops the last `k`. -/
def pyTake (n : Int) (l : List α) : List α :=
  if 0 ≤ n then l.take n.toNat else l.take (l.length - (-n).toNat)

/-- Python truthiness of an optional string (`None` and `""` are falsy). -/
def truthy : Option String → Bool
  | none => false
  | some s => s ≠ ""

/-! Association lists with Python-dict semantics: updating an existing key
keeps its position, a fresh key is appended, iteration follows insertion
order. -/

/-- Python dict update `d[k] = v`. -/
def dictInsert (k : String) (v : α) : List (String × α) → List (String × α)
  | [] => [(k, v)]
  | (k1, v1) :: rest =>
      if k1 = k then (k, v) :: rest else (k1, v1) :: dictInsert k v rest

/-- Python dict lookup `d.get(k)`. -/
def dictGet (k : String) : List (String × α) → Option α
  | [] => none
  | (k1, v1) :: rest => if k1 = k then some v1 else dictGet k rest

/-- Python dict removal, the effect of `d.pop(k, None)`. -/
def dictRemove (k : String) : List (String × α) → List (String × α)
  | [] => []
  | (k1, v1) :: rest =>
      if k1 = k then rest else (k1, v1) :: dictRemove k rest

/-- Python dict iteration `d.values()`. -/
def dictValues (l : List (String × α)) : List α := l.map Prod.snd

/-! ## Confidence ordering and the stable sort -/

/-- Relation holding when `a` ranks no lower than `b`: used by
both sorts (`key=lambda f: f.confidence, reverse=True`). -/
def confGE (a b : Fact) : Prop := b.confidence ≤ a.confidence

instance : DecidableRel confGE := fun a b =>
  inferInstanceAs (Decidable (b.confidence ≤ a.confidence))

instance : IsTotal Fact confGE := ⟨fun a b => le_total b.confidence a.confidence⟩

instance : IsTrans Fact confGE := ⟨fun _ _ _ h1 h2 => le_trans h2 h1⟩

/-- Python's stable `list.sort(key=..., reverse=True)`: sort by confidence
descending, ties keeping their original relative order. -/
def sortByConfDesc (l : List Fact) : List Fact := l.insertionSort confGE

/-! ## The fact store (store.py) -/

/-- The Graphiti backend collaborator: `add_episode` may raise (modelled as
`Except`), `search` returns opaque raw results. -/
structure GraphitiClient where
  add_episode : String → String → String → String → Except String Unit
  search : String → List String → Int → List Unit

/-- store.py: `GraphitiKnowledgeStore` state — an optional backend plus the
in-memory fact dict. -/
structure GraphitiKnowledgeStore where
  graphiti : Option GraphitiClient := none
  facts : List (String × Fact) := []

/-- The `.value` string of a `FactSourceType`. -/
def FactSourceType.valueStr : FactSourceType → String
  | FactSourceType.mission_extraction => "mission_extraction"
  | FactSourceType.experiment => "experiment"
  | FactSourceType.user_input => "user_input"
  | FactSourceType.promoted => "promoted"
  | FactSourceType.explicit_remember => "explicit_remember"

/-- store.py: `_scope_group` — level plus the truthy identifiers, colon
joined. -/
def scope_group (scope : KnowledgeScope) : String :=
  let parts :=
    [match scope.level with
     | ScopeLevel.platform => "platform"
     | ScopeLevel.realm => "realm"
     | ScopeLevel.formation => "formation"
     | ScopeLevel.cell => "cell"]
    ++ (if truthy scope.realm_id then [scope.realm_id.getD ("")] else [])
    ++ (if truthy scope.formation_id then [scope.formation_id.getD ("")] else [])
    ++ (if truthy scope.cell_id then [scope.cell_id.getD ("")] else [])
  joinSep (":") parts

/-- store.py: `_visible_groups`. -/
def visible_groups (scope : KnowledgeScope) : List String :=
  ["platform"]
  ++ (if truthy scope.realm_id then
        ["realm:" ++ scope.realm_id.getD ("")] else [])
  ++ (if truthy scope.formation_id then
        ["formation:" ++ scope.realm_id.getD ("") ++ ":" ++ scope.formation_id.getD ("")]
      else [])
  ++ (if truthy scope.cell_id then
        ["cell:" ++ scope.realm_id.getD ("") ++ ":" ++ scope.formation_id.getD ("")
           ++ ":" ++ scope.cell_id.getD ("")]
      else [])

/-- store.py: `_map_graphiti_results` — always the empty list. -/
def map_graphiti_results (results : List Unit) (req : SearchRequest) : List Fact := []

/-- The `Fact(...)` record built at the top of `add_fact`. -/
def mkFact (req : AddFactRequest) (fact_id : String) (now : Nat) : Fact :=
  { id := fact_id, content := req.content, scope := req.scope,
    source := req.source, confidence := req.confidence,
    valid_from := now, valid_until := none, tags := req.tags }

/-- store.py: `add_fact`.  Fresh uuid and current time arrive as the
parameters `fact_id` and `now`; the backend call (when a backend is
configured) happens before the in-memory insert and a raised exception
propagates, leaving the store unchanged. -/
def GraphitiKnowledgeStore.add_fact (s : GraphitiKnowledgeStore)
    (req : AddFactRequest) (fact_id : String) (now : Nat) :
    Except String String × GraphitiKnowledgeStore :=
  let fact : Fact := mkFact req fact_id now
  match s.graphiti with
  | some c =>
      match c.add_episode ("fact-" ++ fact_id) req.content
          ("kais:" ++ req.source.type.valueStr) (scope_group req.scope) with
      | Except.ok _ =>
          (Except.ok fact_id, { s with facts := dictInsert fact_id fact s.facts })
      | Except.error e => (Except.error e, s)
  | none =>
      (Except.ok fact_id, { s with facts := dictInsert fact_id fact s.facts })

/-- store.py: the per-fact keyword test of the fallback loop — some query
token occurs (case-insensitively, as a substring) in the content or in the
space-joined tags. -/
def keywordHit (words : List String) (f : Fact) : Bool :=
  words.any (fun w =>
    strContains (strLower f.content) w ||
    strContains (strLower (joinSep (" ") f.tags)) w)

/-- store.py: the fallback `for fact in self._facts.values()` loop with its
three `continue` filters and the keyword test. -/
def searchLoop (req : SearchRequest) (words : List String) : List Fact → List Fact
  | [] => []
  | f :: rest =>
      if !req.include_invalidated && f.valid_until.isSome then
        searchLoop req words rest
      else if f.confidence < req.min_confidence then
        searchLoop req words rest
      else if !is_visible f.scope req.scope then
        searchLoop req words rest
      else if keywordHit words f then
        f :: searchLoop req words rest
      else
        searchLoop req words rest

/-- store.py: `search`.  With a backend it delegates and maps the raw
results (the mapper returns `[]`); without one it runs the in-memory
keyword fallback, sorts by confidence descending (stably) and truncates by
Python slicing. -/
def GraphitiKnowledgeStore.search (s : GraphitiKnowledgeStore)
    (req : SearchRequest) : List Fact :=
  match s.graphiti with
  | some c =>
      map_graphiti_results
        (c.search req.query (visible_groups req.scope) req.max_results) req
  | none =>
      let query_lower := strLower req.query
      let words := pySplit query_lower
      let found := searchLoop req words (dictValues s.facts)
      pyTake req.max_results (sortByConfDesc found)

/-- store.py: `invalidate` — set `valid_until = now` when the id is present,
otherwise do nothing. -/
def GraphitiKnowledgeStore.invalidate (s : GraphitiKnowledgeStore)
    (fact_id : String) (reason : String) (now : Nat) : GraphitiKnowledgeStore :=
  match dictGet fact_id s.facts with
  | some f =>
      { s with facts := dictInsert fact_id { f with valid_until := some now } s.facts }
  | none => s

/-! ## The graph registry / router (router.py) -/

/-- router.py: `RegisteredGraph`. -/
structure RegisteredGraph where
  graph_id : String
  store : GraphitiKnowledgeStore
  parent_chain : List String
  inherit : Bool

/-- router.py: `KnowledgeGraphRouter` state — the graph dict. -/
structure KnowledgeGraphRouter where
  graphs : List (String × RegisteredGraph) := []

/-- Exceptions a router operation can raise: the `ValueError` for an
unknown graph id, or a propagated backend exception. -/
inductive RouterError where
  | unknownGraph (graph_id : String)
  | backendError (msg : String)
deriving DecidableEq, Repr

/-- router.py: `register_graph` — builds a store with
`graphiti_client=None` (the `endpoint` and `database` arguments are
accepted and unused) and creates or replaces the registry entry. -/
def KnowledgeGraphRouter.register_graph (r : KnowledgeGraphRouter)
    (graph_id : String) (endpoint : Option String) (database : String)
    (parent_chain : List String) (inherit : Bool) : KnowledgeGraphRouter :=
  let store : GraphitiKnowledgeStore := { graphiti := none, facts := [] }
  { graphs :=
      dictInsert graph_id
        { graph_id := graph_id, store := store,
          parent_chain := parent_chain, inherit := inherit } r.graphs }

/-- router.py: `unregister_graph`. -/
def KnowledgeGraphRouter.unregister_graph (r : KnowledgeGraphRouter)
    (graph_id : String) : KnowledgeGraphRouter :=
  { graphs := dictRemove graph_id r.graphs }

/-- router.py: `get_store`. -/
def KnowledgeGraphRouter.get_store (r : KnowledgeGraphRouter)
    (graph_id : String) : Option GraphitiKnowledgeStore :=
  (dictGet graph_id r.graphs).map RegisteredGraph.store

/-- router.py: `get_search_chain` — the entry itself, then (when it
inherits) each registered parent in `parent_chain` order. -/
def KnowledgeGraphRouter.get_search_chain (r : KnowledgeGraphRouter)
    (graph_id : String) : List RegisteredGraph :=
  match dictGet graph_id r.graphs with
  | none => []
  | some entry =>
      if !entry.inherit then [entry]
      else entry ::
        entry.parent_chain.filterMap (fun pid => dictGet pid r.graphs)

/-- router.py: the `seen`-set deduplication loop of `search`: keep a fact
when its `content` has not been seen yet. -/
def dedupAux (seen : List String) : List Fact → List Fact
  | [] => []
  | f :: rest =>
      if seen.contains f.content then dedupAux seen rest
      else f :: dedupAux (f.content :: seen) rest

/-- router.py: `search` — resolve the chain, query each entry, concatenate,
deduplicate by content, sort by confidence descending, truncate. -/
def KnowledgeGraphRouter.search (r : KnowledgeGraphRouter)
    (graph_id : String) (req : SearchRequest) : List Fact :=
  let chain := r.get_search_chain graph_id
  if chain.isEmpty then []
  else
    let all_results := (chain.map (fun e => e.store.search req)).join
    let unique := dedupAux [] all_results
    pyTake req.max_results (sortByConfDesc unique)

/-- router.py: `add_fact` — resolve the graph's own store (raising
`ValueError` for an unknown id) and delegate; the store state is written
back under the same id. -/
def KnowledgeGraphRouter.add_fact (r : KnowledgeGraphRouter)
    (graph_id : String) (req : AddFactRequest) (fact_id : String) (now : Nat) :
    Except RouterError String × KnowledgeGraphRouter :=
  match dictGet graph_id r.graphs with
  | none => (Except.error (RouterError.unknownGraph graph_id), r)
  | some entry =>
      match entry.store.add_fact req fact_id now with
      | (Except.ok fid, store2) =>
          (Except.ok fid,
           { graphs := dictInsert graph_id { entry with store := store2 } r.graphs })
      | (Except.error e, store2) =>
          (Except.error (RouterError.backendError e),
           { graphs := dictInsert graph_id { entry with store := store2 } r.graphs })

/-- router.py: `invalidate` — same resolution rule as `add_fact`. -/
def KnowledgeGraphRouter.invalidate (r : KnowledgeGraphRouter)
    (graph_id : String) (fact_id : String) (reason : String) (now : Nat) :
    Except RouterError Unit × KnowledgeGraphRouter :=
  match dictGet graph_id r.graphs with
  | none => (Except.error (RouterError.unknownGraph graph_id), r)
  | some entry =>
      (Except.ok (),
       { graphs :=
           dictInsert graph_id
             { entry with store := entry.store.invalidate fact_id reason now }
             r.graphs })

/-! ## Reference definitions written from the specification text -/

/-- Whole-word match as the specification words it: some query token equals
(case-insensitively) a whole word of the content or of the space-joined
tags. -/
def tokenWholeWordHit (words : List String) (f : Fact) : Bool :=
  words.any (fun w =>
    (pySplit (strLower f.content)).contains w ||
    (pySplit (strLower (joinSep (" ") f.tags))).contains w)

/-- The specification's fallback filter: keep the facts whose `valid_until`
is unset (unless `include_invalidated`), whose confidence reaches
`min_confidence`, that are visible from the query scope, and that pass the
given keyword test. -/
def spec_filter_facts (req : SearchRequest) (hit : List String → Fact → Bool)
    (facts : List Fact) : List Fact :=
  facts.filter (fun f =>
    (req.include_invalidated || f.valid_until.isNone) &&
    decide (req.min_confidence ≤ f.confidence) &&
    is_visible f.scope req.scope &&
    hit (pySplit (strLower req.query)) f)

/-- The claim's reference fallback search with whole-word token matching:
filter, stable-sort by confidence descending, truncate. -/
def spec_search_wholeword (s : GraphitiKnowledgeStore)
    (req : SearchRequest) : List Fact :=
  pyTake req.max_results
    (sortByConfDesc (spec_filter_facts req tokenWholeWordHit (dictValues s.facts)))

/-- The amended reference fallback search: identical to
`spec_search_wholeword` except that a token matches as a substring of the
content or of the space-joined tags — which is what the code does. -/
def spec_search_substring (s : GraphitiKnowledgeStore)
    (req : SearchRequest) : List Fact :=
  pyTake req.max_results
    (sortByConfDesc (spec_filter_facts req keywordHit (dictValues s.facts)))

/-- Deduplication as the specification words it: walk the concatenated
results keeping a fact exactly when no already-kept fact has the same
content (first occurrence wins). -/
def spec_dedup (l : List Fact) : List Fact :=
  l.foldl
    (fun acc f =>
      if acc.any (fun g => g.content == f.content) then acc else acc ++ [f]) []

/-- The claim's reference router search: empty chain gives the empty
result; otherwise concatenate the per-store results in chain order,
deduplicate by content with first occurrence kept, sort by confidence
descending, truncate to `max_results`. -/
def spec_router_search (r : KnowledgeGraphRouter) (graph_id : String)
    (req : SearchRequest) : List Fact :=
  let chain := r.get_search_chain graph_id
  match chain with
  | [] => []
  | _ =>
      pyTake req.max_results
        (sortByConfDesc (spec_dedup ((chain.map (fun e => e.store.search req)).join)))

/-! ## Reachable router states and the no-backend invariant -/

/-- Registry states reachable through the router's operations, starting
from the freshly-constructed empty registry. -/
inductive Reachable : KnowledgeGraphRouter → Prop where
  | init : Reachable { graphs := [] }
  | register (r : KnowledgeGraphRouter) (h : Reachable r) (id : String)
      (ep : Option String) (db : String) (pc : List String) (inh : Bool) :
      Reachable (r.register_graph id ep db pc inh)
  | unregister (r : KnowledgeGraphRouter) (h : Reachable r) (id : String) :
      Reachable (r.unregister_graph id)
  | addFact (r : KnowledgeGraphRouter) (h : Reachable r) (id : String)
      (req : AddFactRequest) (fid : String) (now : Nat) :
      Reachable (r.add_fact id req fid now).2
  | doInvalidate (r : KnowledgeGraphRouter) (h : Reachable r)
      (id fid reason : String) (now : Nat) :
      Reachable (r.invalidate id fid reason now).2

/-- Every entry of the registry holds a store without a backend client. -/
def NoBackendEntries (r : KnowledgeGraphRouter) : Prop :=
  ∀ p ∈ r.graphs, (Prod.snd p).store.graphiti = none

/-! ## Concrete fixtures used by counterexamples and witnesses -/

/-- One half, as an explicitly reduced rational. -/
def qHalf : Rat := ⟨1, 2, by decide, by decide⟩

/-- Three quarters, as an explicitly reduced rational. -/
def qThreeQ : Rat := ⟨3, 4, by decide, by decide⟩

/-- One quarter, as an explicitly reduced rational. -/
def qQuarter : Rat := ⟨1, 4, by decide, by decide⟩

def fact_c2 : Fact :=
  { id := "f1", content := "catx", scope := { level := ScopeLevel.platform },
    source := { type := FactSourceType.user_input }, confidence := qHalf,
    valid_from := 0, valid_until := none, tags := [] }

def store_c2 : GraphitiKnowledgeStore :=
  { graphiti := none, facts := [("f1", fact_c2)] }

def req_c2 : SearchRequest :=
  { query := "cat", scope := { level := ScopeLevel.platform },
    max_results := 20, min_confidence := 0, include_invalidated := false }

def r_c4 : KnowledgeGraphRouter :=
  ((KnowledgeGraphRouter.mk []).register_graph ("p") none ("db") [] true
    ).register_graph ("t") none ("db") ["p", "missing"] true

def entry_c4p : RegisteredGraph :=
  { graph_id := "p", store := { graphiti := none, facts := [] },
    parent_chain := [], inherit := true }

def entry_c4t : RegisteredGraph :=
  { graph_id := "t", store := { graphiti := none, facts := [] },
    parent_chain := ["p", "missing"], inherit := true }

def client_c5 : GraphitiClient :=
  { add_episode := fun _ _ _ _ => Except.error ("backend down"),
    search := fun _ _ _ => [] }

def store_c5 : GraphitiKnowledgeStore :=
  { graphiti := some client_c5, facts := [] }

def req_c5 : AddFactRequest :=
  { content := "hello", scope := { level := ScopeLevel.platform },
    source := { type := FactSourceType.user_input }, confidence := qHalf,
    tags := [] }

def fact_c6 : Fact :=
  { id := "a", content := "xa", scope := { level := ScopeLevel.platform },
    source := { type := FactSourceType.user_input }, confidence := qHalf,
    valid_from := 0, valid_until := none, tags := [] }

def fact_c6inv : Fact := { fact_c6 with valid_until := some 5 }

def store_c6 : GraphitiKnowledgeStore :=
  { graphiti := none, facts := [("a", fact_c6)] }

def store_c6inv : GraphitiKnowledgeStore :=
  { graphiti := none, facts := [("a", fact_c6inv)] }

def req_c6 : SearchRequest :=
  { query := "xa", scope := { level := ScopeLevel.platform },
    max_results := 20, min_confidence := 0, include_invalidated := true }

def r_c7 : KnowledgeGraphRouter :=
  (KnowledgeGraphRouter.mk []).register_graph ("p") none ("db") [] true

def req_c7 : AddFactRequest :=
  { content := "hello", scope := { level := ScopeLevel.platform },
    source := { type := FactSourceType.user_input }, confidence := qHalf,
    tags := [] }

def scope_c8 : KnowledgeScope :=
  { level := ScopeLevel.cell, realm_id := none, formation_id := none,
    cell_id := some ("c1") }

def req_c8 : AddFactRequest :=
  { content := "hello", scope := scope_c8,
    source := { type := FactSourceType.user_input }, confidence := qHalf,
    tags := [] }

def store_c8 : GraphitiKnowledgeStore := { graphiti := none, facts := [] }

def fact_c9a : Fact :=
  { id := "a", content := "xa", scope := { level := ScopeLevel.platform },
    source := { type := FactSourceType.user_input }, confidence := qThreeQ,
    valid_from := 0, valid_until := none, tags := [] }

def fact_c9b : Fact :=
  { id := "b", content := "xb", scope := { level := ScopeLevel.platform },
    source := { type := FactSourceType.user_input }, confidence := qQuarter,
    valid_from := 0, valid_until := none, tags := [] }

def store_c9 : GraphitiKnowledgeStore :=
  { graphiti := none, facts := [("a", fact_c9a), ("b", fact_c9b)] }

def req_c9 : SearchRequest :=
  { query := "x", scope := { level := ScopeLevel.platform },
    max_results := -1, min_confidence := 0, include_invalidated := false }

def req_c9z : SearchRequest := { req_c9 with max_results := 0 }

def r_c9 : KnowledgeGraphRouter :=
  (KnowledgeGraphRouter.mk []).register_graph ("g") none ("db") [] true

def router_c10 : KnowledgeGraphRouter :=
  (KnowledgeGraphRouter.mk []).register_graph ("g") (some ("bolt://x")) "db" [] true

def entry_c10 : RegisteredGraph :=
  { graph_id := "g", store := { graphiti := none, facts := [] },
    parent_chain := [], inherit := true }

def req_c10 : AddFactRequest :=
  { content := "hello", scope := { level := ScopeLevel.platform },
    source := { type := FactSourceType.user_input }, confidence := qHalf,
    tags := [] }

/-! ## Helper lemmas -/

theorem levelIndex_platform : levelIndex ScopeLevel.platform = 0 := rfl

theorem levelIndex_realm : levelIndex ScopeLevel.realm = 1 := rfl

theorem levelIndex_formation : levelIndex ScopeLevel.formation = 2 := rfl

theorem levelIndex_cell : levelIndex ScopeLevel.cell = 3 := rfl

/-- C1: `is_visible` agrees with the specification's reference definition on
every pair of scopes: strictly lower fact level gives `true`, strictly higher
gives `false`, and at equal levels the identifiers from `realm` up to the
level decide, with platform scopes always mutually visible. -/
theorem is_visible_eq_spec (fs qs : KnowledgeScope) :
    is_visible fs qs = spec_is_visible fs qs := by
  obtain ⟨lf, rf, ff, cf⟩ := fs
  obtain ⟨lq, rq, fq, cq⟩ := qs
  cases lf <;> cases lq <;>
    simp [is_visible, spec_is_visible, levelIndex, SCOPE_ORDER]

theorem pyTake_zero (l : List α) : pyTake 0 l = [] := by
  simp [pyTake]

theorem pyTake_sublist (n : Int) (l : List α) : (pyTake n l).Sublist l := by
  unfold pyTake
  split
  · exact List.take_sublist _ _
  · exact List.take_sublist _ _

theorem mem_pyTake {n : Int} {l : List α} {a : α} (h : a ∈ pyTake n l) :
    a ∈ l := (pyTake_sublist n l).mem h

theorem sortByConfDesc_sorted (l : List Fact) :
    List.Sorted confGE (sortByConfDesc l) :=
  List.sorted_insertionSort confGE l

theorem sortByConfDesc_perm (l : List Fact) :
    (sortByConfDesc l).Perm l :=
  List.perm_insertionSort confGE l

theorem dictGet_dictInsert_self (k : String) (v : α) (l : List (String × α)) :
    dictGet k (dictInsert k v l) = some v := by
  induction l with
  | nil => simp [dictInsert, dictGet]
  | cons p rest ih =>
      obtain ⟨k1, v1⟩ := p
      by_cases h : k1 = k <;> simp [dictInsert, dictGet, h, ih]

theorem dictGet_dictInsert_ne {g k : String} (hne : g ≠ k) (v : α)
    (l : List (String × α)) :
    dictGet g (dictInsert k v l) = dictGet g l := by
  induction l with
  | nil => simp [dictInsert, dictGet, Ne.symm hne]
  | cons p rest ih =>
      obtain ⟨k1, v1⟩ := p
      by_cases h1 : k1 = k
      · subst h1
        simp [dictInsert, dictGet, Ne.symm hne]
      · by_cases h2 : k1 = g
        · subst h2
          simp [dictInsert, dictGet, h1, hne, ih]
        · simp [dictInsert, dictGet, h1, h2, ih]

theorem dictGet_mem {k : String} {v : α} {l : List (String × α)}
    (h : dictGet k l = some v) : (k, v) ∈ l := by
  induction l with
  | nil => simp [dictGet] at h
  | cons p rest ih =>
      obtain ⟨k1, v1⟩ := p
      by_cases h1 : k1 = k
      · subst h1
        simp [dictGet] at h
        simp [h]
      · simp [dictGet, h1] at h
        exact List.mem_cons_of_mem _ (ih h)

theorem mem_dictInsert {p : String × α} {k : String} {v : α}
    {l : List (String × α)} (h : p ∈ dictInsert k v l) :
    p = (k, v) ∨ p ∈ l := by
  induction l with
  | nil => simpa [dictInsert] using h
  | cons q rest ih =>
      obtain ⟨k1, v1⟩ := q
      by_cases h1 : k1 = k
      · simp [dictInsert, h1] at h
        rcases h with h | h
        · exact Or.inl h
        · exact Or.inr (List.mem_cons_of_mem _ h)
      · simp [dictInsert, h1] at h
        rcases h with h | h
        · exact Or.inr (by simp [h])
        · rcases ih h with h2 | h2
          · exact Or.inl h2
          · exact Or.inr (List.mem_cons_of_mem _ h2)

theorem mem_dictRemove {p : String × α} {k : String}
    {l : List (String × α)} (h : p ∈ dictRemove k l) : p ∈ l := by
  induction l with
  | nil => simpa [dictRemove] using h
  | cons q rest ih =>
      obtain ⟨k1, v1⟩ := q
      by_cases h1 : k1 = k
      · simp [dictRemove, h1] at h
        exact List.mem_cons_of_mem _ h
      · simp [dictRemove, h1] at h
        rcases h with h | h
        · simp [h]
        · exact List.mem_cons_of_mem _ (ih h)

/-- The fallback loop with its `continue` filters equals a single filter by
the conjunction of the four conditions. -/
theorem searchLoop_eq_filter (req : SearchRequest) (words : List String)
    (l : List Fact) :
    searchLoop req words l =
      l.filter (fun f =>
        (req.include_invalidated || f.valid_until.isNone) &&
        decide (req.min_confidence ≤ f.confidence) &&
        is_visible f.scope req.scope &&
        keywordHit words f) := by
  induction l with
  | nil => rfl
  | cons f rest ih =>
      by_cases hconf : f.confidence < req.min_confidence
      · have hc2 : ¬ req.min_confidence ≤ f.confidence := not_le.mpr hconf
        cases hinc : req.include_invalidated <;> cases hvu : f.valid_until <;>
          simp [searchLoop, List.filter_cons, hinc, hvu, hconf, hc2, ih]
      · have hc2 : req.min_confidence ≤ f.confidence := not_lt.mp hconf
        cases hinc : req.include_invalidated <;> cases hvu : f.valid_until <;>
          cases hvis : is_visible f.scope req.scope <;>
            cases hkw : keywordHit words f <;>
              simp [searchLoop, List.filter_cons, hinc, hvu, hconf, hc2,
                hvis, hkw, ih]

theorem contains_cons_eq (a b : String) (l : List String) :
    (b :: l).contains a = ((a == b) || l.contains a) := by
  simp only [List.contains, List.elem]
  cases h : a == b <;> simp

/-- The seen-set deduplication loop equals the specification's first-wins
fold, given that the seen set records exactly the contents of the
accumulated output. -/
theorem dedup_foldl_aux (l : List Fact) :
    ∀ (acc : List Fact) (seen : List String),
      (∀ c : String, seen.contains c = acc.any (fun g => g.content == c)) →
      l.foldl
        (fun acc2 f =>
          if acc2.any (fun g => g.content == f.content) then acc2
          else acc2 ++ [f]) acc
        = acc ++ dedupAux seen l := by
  induction l with
  | nil => intro acc seen _; simp [dedupAux]
  | cons f rest ih =>
      intro acc seen h
      have e2 : dedupAux seen (f :: rest)
          = if seen.contains f.content = true then dedupAux seen rest
            else f :: dedupAux (f.content :: seen) rest := rfl
      by_cases hs : seen.contains f.content = true
      · have ha : (acc.any fun g => g.content == f.content) = true := by
          rw [← h]; exact hs
        rw [List.foldl_cons]
        rw [if_pos ha, e2, if_pos hs]
        exact ih acc seen h
      · have hsf : seen.contains f.content = false := by
          simpa using hs
        have ha : (acc.any fun g => g.content == f.content) = false := by
          rw [← h]; exact hsf
        have h2 : ∀ c : String,
            (f.content :: seen).contains c =
              (acc ++ [f]).any (fun g => g.content == c) := by
          intro c
          have hsplit : (acc ++ [f]).any (fun g => g.content == c)
              = (acc.any (fun g => g.content == c) || (f.content == c)) := by
            simp [List.any_append]
          rw [contains_cons_eq, hsplit, h c]
          by_cases hc : c = f.content
          · subst hc
            simp
          · have hne1 : (c == f.content) = false := by
              simp [beq_iff_eq, hc]
            have hne2 : (f.content == c) = false := by
              simp [beq_iff_eq]
              exact fun hh => hc hh.symm
            rw [hne1, hne2]
            simp
        rw [List.foldl_cons]
        rw [if_neg (by simp [ha]), e2, if_neg hs,
          ih (acc ++ [f]) (f.content :: seen) h2]
        simp

/-- Deduplication from the empty seen set is the specification's
first-wins deduplication. -/
theorem dedupAux_eq_spec (l : List Fact) : dedupAux [] l = spec_dedup l := by
  have h := dedup_foldl_aux l [] [] (by intro c; simp)
  simpa [spec_dedup] using h.symm

/-- A backendless store's search is the filter-sort-truncate pipeline. -/
theorem search_none_eq (s : GraphitiKnowledgeStore) (req : SearchRequest)
    (h : s.graphiti = none) :
    s.search req = spec_search_substring s req := by
  obtain ⟨g, facts⟩ := s
  simp only at h
  subst h
  show pyTake req.max_results
      (sortByConfDesc (searchLoop req (pySplit (strLower req.query))
        (dictValues facts))) = _
  rw [searchLoop_eq_filter]
  rfl

/-- The operation `add_fact` never changes which backend the store holds. -/
theorem add_fact_graphiti (s : GraphitiKnowledgeStore) (req : AddFactRequest)
    (fid : String) (now : Nat) :
    ((s.add_fact req fid now).2).graphiti = s.graphiti := by
  obtain ⟨g, facts⟩ := s
  cases g with
  | none => rfl
  | some c =>
      show (match c.add_episode ("fact-" ++ fid) req.content
          ("kais:" ++ req.source.type.valueStr) (scope_group req.scope) with
        | Except.ok _ => _
        | Except.error _ => _ : Except String String × GraphitiKnowledgeStore).2.graphiti
        = some c
      cases c.add_episode ("fact-" ++ fid) req.content
          ("kais:" ++ req.source.type.valueStr) (scope_group req.scope) with
      | ok u => rfl
      | error e => rfl

/-- The operation `invalidate` never changes which backend the store holds. -/
theorem invalidate_graphiti (s : GraphitiKnowledgeStore)
    (fid reason : String) (now : Nat) :
    (s.invalidate fid reason now).graphiti = s.graphiti := by
  unfold GraphitiKnowledgeStore.invalidate
  cases dictGet fid s.facts with
  | none => rfl
  | some f => rfl

/-- All reachable registry states satisfy the no-backend invariant. -/
theorem reachable_noBackend (r : KnowledgeGraphRouter) (h : Reachable r) :
    NoBackendEntries r := by
  induction h with
  | init => intro p hp; simp at hp
  | register r0 h0 id ep db pc inh ih =>
      intro p hp
      rcases mem_dictInsert hp with h1 | h1
      · rw [h1]
      · exact ih p h1
  | unregister r0 h0 id ih =>
      intro p hp
      exact ih p (mem_dictRemove hp)
  | addFact r0 h0 id req fid now ih =>
      intro p hp
      unfold KnowledgeGraphRouter.add_fact at hp
      split at hp
      · exact ih p hp
      · rename_i entry heq
        split at hp
        · rename_i fid2 store2 heq2
          rcases mem_dictInsert hp with h1 | h1
          · rw [h1]
            show store2.graphiti = none
            have hg2 : store2.graphiti = entry.store.graphiti := by
              have h3 := add_fact_graphiti entry.store req fid now
              rw [heq2] at h3
              exact h3
            rw [hg2]
            exact ih (id, entry) (dictGet_mem heq)
          · exact ih p h1
        · rename_i e store2 heq2
          rcases mem_dictInsert hp with h1 | h1
          · rw [h1]
            show store2.graphiti = none
            have hg2 : store2.graphiti = entry.store.graphiti := by
              have h3 := add_fact_graphiti entry.store req fid now
              rw [heq2] at h3
              exact h3
            rw [hg2]
            exact ih (id, entry) (dictGet_mem heq)
          · exact ih p h1
  | doInvalidate r0 h0 id fid reason now ih =>
      intro p hp
      unfold KnowledgeGraphRouter.invalidate at hp
      split at hp
      · exact ih p hp
      · rename_i entry heq
        rcases mem_dictInsert hp with h1 | h1
        · rw [h1]
          show (entry.store.invalidate fid reason now).graphiti = none
          rw [invalidate_graphiti]
          exact ih (id, entry) (dictGet_mem heq)
        · exact ih p h1

/-- A backendless store's `add_fact` always succeeds, inserting the new
fact record and returning the generated id. -/
theorem add_fact_none_eq (s : GraphitiKnowledgeStore) (req : AddFactRequest)
    (fid : String) (now : Nat) (h : s.graphiti = none) :
    s.add_fact req fid now =
      (Except.ok fid,
       { s with facts := dictInsert fid (mkFact req fid now) s.facts }) := by
  obtain ⟨g, facts⟩ := s
  simp only at h
  subst h
  rfl

/-- C2 (corrected): with no backend, `search` returns exactly the stored
facts that pass the invalidation, confidence and visibility filters and
whose content or space-joined tags contain some query token as a
case-insensitive substring (the code matches substrings, not whole words),
sorted stably by confidence descending and truncated by Python slicing;
the returned sequence is sorted by confidence descending. -/
theorem search_fallback_eq_spec_substring :
    ∀ (s : GraphitiKnowledgeStore) (req : SearchRequest), s.graphiti = none →
      s.search req = spec_search_substring s req ∧
      List.Sorted confGE (s.search req) := by
  intro s req h
  refine ⟨search_none_eq s req h, ?_⟩
  rw [search_none_eq s req h]
  unfold spec_search_substring
  exact List.Pairwise.sublist (pyTake_sublist _ _) (sortByConfDesc_sorted _)

/-- C2 counterexample: with query token `cat` and fact content `catx`, the
code's fallback search returns the fact while the claim's whole-word
reference search returns nothing. -/
theorem search_wholeword_counterexample :
    store_c2.search req_c2 = [fact_c2] ∧
    spec_search_wholeword store_c2 req_c2 = [] := by
  constructor
  · rfl
  · rfl

/-- C2 witness: the corrected statement instantiated at a concrete
backendless store. -/
theorem search_fallback_eq_spec_substring_witness :
    store_c2.search req_c2 = spec_search_substring store_c2 req_c2 ∧
    List.Sorted confGE (store_c2.search req_c2) :=
  search_fallback_eq_spec_substring store_c2 req_c2 rfl

/-- C3: the router's search equals the specification's pipeline — empty
chain gives the empty result, otherwise per-store results are concatenated
in chain order, deduplicated by exact content with the first occurrence
kept, sorted by confidence descending, and truncated to `max_results`. -/
theorem router_search_eq_spec :
    ∀ (r : KnowledgeGraphRouter) (graph_id : String) (req : SearchRequest),
      r.search graph_id req = spec_router_search r graph_id req := by
  intro r gid req
  unfold KnowledgeGraphRouter.search spec_router_search
  cases hc : r.get_search_chain gid with
  | nil => rfl
  | cons e es => simp [dedupAux_eq_spec]

/-- C4: `get_search_chain` returns the empty chain for an unregistered id;
for a registered entry it returns the singleton when `inherit` is false and
otherwise the entry followed by exactly the registered parents in
`parent_chain` order, unregistered parents skipped, without recursion. -/
theorem get_search_chain_spec :
    ∀ (r : KnowledgeGraphRouter) (graph_id : String),
      (dictGet graph_id r.graphs = none →
        r.get_search_chain graph_id = []) ∧
      (∀ e, dictGet graph_id r.graphs = some e →
        (e.inherit = false → r.get_search_chain graph_id = [e]) ∧
        (e.inherit = true → r.get_search_chain graph_id =
          e :: e.parent_chain.filterMap (fun pid => dictGet pid r.graphs))) := by
  intro r gid
  constructor
  · intro h
    unfold KnowledgeGraphRouter.get_search_chain
    rw [h]
  · intro e h
    constructor <;> intro hi <;>
      unfold KnowledgeGraphRouter.get_search_chain <;> rw [h] <;> simp [hi]

/-- C4 witness: on a registry holding `p` and `t` (parents `[p, missing]`,
inheriting), the chain of `t` is `[t, p]` — the unregistered parent is
skipped. -/
theorem get_search_chain_spec_witness :
    r_c4.get_search_chain ("t") = [entry_c4t, entry_c4p] := by
  have h := ((get_search_chain_spec r_c4 ("t")).2 entry_c4t rfl).2 rfl
  rw [h]
  rfl

/-- C5 (corrected): when the configured backend's `add_episode` raises, the
exception propagates out of `add_fact`: no in-memory record is created (the
store is unchanged) and no id is returned; the code awaits the backend call
before the in-memory insert with no exception handling. -/
theorem add_fact_backend_failure_propagates :
    ∀ (s : GraphitiKnowledgeStore) (req : AddFactRequest) (fact_id : String)
      (now : Nat) (c : GraphitiClient) (e : String),
      s.graphiti = some c →
      c.add_episode ("fact-" ++ fact_id) req.content
          ("kais:" ++ req.source.type.valueStr) (scope_group req.scope)
        = Except.error e →
      s.add_fact req fact_id now = (Except.error e, s) := by
  intro s req fid now c e h hc
  obtain ⟨g, facts⟩ := s
  simp only at h
  subst h
  unfold GraphitiKnowledgeStore.add_fact
  split
  · rename_i u heq
    simp only at heq
    injection heq with h4
    subst h4
    split
    · rename_i a heq2
      rw [hc] at heq2
      exact Except.noConfusion heq2
    · rename_i e2 heq2
      rw [hc] at heq2
      injection heq2 with h5
      subst h5
      rfl
  · rename_i heq
    simp only at heq
    exact Option.noConfusion heq

/-- C5 counterexample: with a backend whose `add_episode` always raises,
`add_fact` returns the propagated error and leaves the fact map empty —
neither is the record created nor the id returned. -/
theorem add_fact_backend_failure_counterexample :
    (store_c5.add_fact req_c5 ("f1") 0).1 = Except.error ("backend down") ∧
    (store_c5.add_fact req_c5 ("f1") 0).2.facts = [] := by
  constructor
  · rfl
  · rfl

/-- C5 witness: the corrected statement instantiated at the failing
backend. -/
theorem add_fact_backend_failure_propagates_witness :
    store_c5.add_fact req_c5 ("f1") 0 = (Except.error ("backend down"), store_c5) :=
  add_fact_backend_failure_propagates store_c5 req_c5 ("f1") 0 client_c5
    ("backend down") rfl rfl

/-- C6: `invalidate` stamps `valid_until = now` on a present fact and is a
no-op on an unknown id; a backendless search without `include_invalidated`
only ever returns facts whose `valid_until` is unset, while with
`include_invalidated` an invalidated fact can be returned. -/
theorem invalidate_spec :
    ∀ (s : GraphitiKnowledgeStore) (fact_id reason : String) (now : Nat),
      (dictGet fact_id s.facts = none → s.invalidate fact_id reason now = s) ∧
      (∀ f, dictGet fact_id s.facts = some f →
        s.invalidate fact_id reason now =
          { s with facts :=
              (dictInsert fact_id ({ f with valid_until := some now } : Fact)
                s.facts) }) ∧
      (∀ (s2 : GraphitiKnowledgeStore) (req : SearchRequest) (g : Fact),
        s2.graphiti = none → req.include_invalidated = false →
        g ∈ s2.search req → g.valid_until = none) ∧
      (∃ (s3 : GraphitiKnowledgeStore) (req3 : SearchRequest) (g3 : Fact),
        req3.include_invalidated = true ∧ g3.valid_until ≠ none ∧
        g3 ∈ s3.search req3) := by
  intro s fid reason now
  refine ⟨?_, ?_, ?_, ?_⟩
  · intro h
    unfold GraphitiKnowledgeStore.invalidate
    rw [h]
  · intro f h
    unfold GraphitiKnowledgeStore.invalidate
    rw [h]
  · intro s2 req g h hinc hg
    rw [search_none_eq s2 req h] at hg
    unfold spec_search_substring at hg
    have hg2 : g ∈ sortByConfDesc
        (spec_filter_facts req keywordHit (dictValues s2.facts)) :=
      mem_pyTake hg
    have hg3 : g ∈ spec_filter_facts req keywordHit (dictValues s2.facts) :=
      (sortByConfDesc_perm _).subset hg2
    unfold spec_filter_facts at hg3
    have hp := (List.mem_filter.mp hg3).2
    rw [hinc] at hp
    simp only [Bool.and_eq_true, Bool.false_or] at hp
    exact Option.isNone_iff_eq_none.mp hp.1.1.1
  · refine ⟨store_c6inv, req_c6, fact_c6inv, rfl, by decide, ?_⟩
    have hres : store_c6inv.search req_c6 = [fact_c6inv] := rfl
    rw [hres]
    exact List.mem_singleton.mpr rfl

/-- C6 witness: invalidating the present fact `a` at time 7 stamps its
`valid_until`. -/
theorem invalidate_spec_witness :
    store_c6.invalidate ("a") "superseded" 7 =
      { store_c6 with facts :=
          (dictInsert ("a") ({ fact_c6 with valid_until := some 7 } : Fact)
            store_c6.facts) } :=
  (invalidate_spec store_c6 ("a") "superseded" 7).2.1 fact_c6 rfl

/-- C7: routed writes resolve only the named graph's own store — `add_fact`
and `invalidate` raise the unknown-graph error exactly when the id is
unregistered, and never change any other graph's registry entry. -/
theorem router_write_locality :
    ∀ (r : KnowledgeGraphRouter) (graph_id : String) (req : AddFactRequest)
      (fid : String) (now : Nat) (fact_id reason : String),
      ((r.add_fact graph_id req fid now).1
          = Except.error (RouterError.unknownGraph graph_id)
        ↔ dictGet graph_id r.graphs = none) ∧
      ((r.invalidate graph_id fact_id reason now).1
          = Except.error (RouterError.unknownGraph graph_id)
        ↔ dictGet graph_id r.graphs = none) ∧
      (∀ g, g ≠ graph_id →
        dictGet g (r.add_fact graph_id req fid now).2.graphs
          = dictGet g r.graphs) ∧
      (∀ g, g ≠ graph_id →
        dictGet g (r.invalidate graph_id fact_id reason now).2.graphs
          = dictGet g r.graphs) := by
  intro r gid req fid now fact_id reason
  refine ⟨?_, ?_, ?_, ?_⟩
  · unfold KnowledgeGraphRouter.add_fact
    cases hget : dictGet gid r.graphs with
    | none => simp
    | some entry =>
        rcases hadd : entry.store.add_fact req fid now with ⟨res, store2⟩
        cases res <;> simp [hadd]
  · unfold KnowledgeGraphRouter.invalidate
    cases hget : dictGet gid r.graphs with
    | none => simp
    | some entry => simp
  · intro g hg
    unfold KnowledgeGraphRouter.add_fact
    cases hget : dictGet gid r.graphs with
    | none => rfl
    | some entry =>
        rcases hadd : entry.store.add_fact req fid now with ⟨res, store2⟩
        cases res <;> simp [hadd] <;> exact dictGet_dictInsert_ne hg _ _
  · intro g hg
    unfold KnowledgeGraphRouter.invalidate
    cases hget : dictGet gid r.graphs with
    | none => rfl
    | some entry =>
        show dictGet g (dictInsert gid _ r.graphs) = dictGet g r.graphs
        exact dictGet_dictInsert_ne hg _ _

/-- C7 witness: on a registry holding only `p`, a write to the unregistered
id `missing` fails with the unknown-graph error and leaves `p`'s entry
untouched. -/
theorem router_write_locality_witness :
    (r_c7.add_fact ("missing") req_c7 ("f") 0).1
      = Except.error (RouterError.unknownGraph ("missing")) ∧
    dictGet ("p") (r_c7.add_fact ("missing") req_c7 ("f") 0).2.graphs
      = dictGet ("p") r_c7.graphs := by
  have h := router_write_locality r_c7 ("missing") req_c7 ("f") 0 ("fid") ("why")
  exact ⟨h.1.mpr rfl, h.2.2.1 ("p") (by decide)⟩

/-- C8 (corrected): the code performs no scope validation — every add-fact
request, including one whose scope lacks identifiers its level requires, is
accepted: against a backendless store the fact record is always inserted
and the id returned, and no rejection path exists. -/
theorem add_fact_no_scope_validation :
    ∀ (s : GraphitiKnowledgeStore) (req : AddFactRequest) (fact_id : String)
      (now : Nat), s.graphiti = none →
      s.add_fact req fact_id now =
        (Except.ok fact_id,
         { s with facts := dictInsert fact_id (mkFact req fact_id now) s.facts }) :=
  fun s req fid now h => add_fact_none_eq s req fid now h

/-- C8 counterexample: a cell-level scope without `realm_id` is not
rejected — `add_fact` succeeds and mutates the fact map. -/
theorem malformed_scope_accepted_counterexample :
    (store_c8.add_fact req_c8 ("f1") 0).1 = Except.ok ("f1") ∧
    (store_c8.add_fact req_c8 ("f1") 0).2.facts ≠ [] := by
  constructor
  · rfl
  · decide

/-- C8 witness: the corrected statement instantiated at the malformed
cell-level scope. -/
theorem add_fact_no_scope_validation_witness :
    store_c8.add_fact req_c8 ("f1") 0 =
      (Except.ok ("f1"),
       { store_c8 with facts :=
          (dictInsert ("f1") (mkFact req_c8 ("f1") 0) store_c8.facts) }) :=
  add_fact_no_scope_validation store_c8 req_c8 ("f1") 0 rfl

/-- C9 (corrected): with `max_results = 0` both the store search and the
router search return the empty sequence; a negative `max_results` however
is a Python slice bound that drops facts from the end of the ranked list,
so it does not yield the empty sequence in general. -/
theorem max_results_zero_empty :
    ∀ (s : GraphitiKnowledgeStore) (r : KnowledgeGraphRouter) (gid : String)
      (req : SearchRequest), req.max_results = 0 →
      s.search req = [] ∧ r.search gid req = [] := by
  intro s r gid req h
  constructor
  · unfold GraphitiKnowledgeStore.search
    cases hg : s.graphiti with
    | some c => rfl
    | none => simp [h, pyTake_zero]
  · unfold KnowledgeGraphRouter.search
    by_cases hc2 : (r.get_search_chain gid).isEmpty = true <;>
      simp [hc2, h, pyTake_zero]

/-- C9 counterexample: with two matching facts and `max_results = -1` the
store search returns the top-confidence fact, not the empty sequence. -/
theorem negative_max_results_counterexample :
    req_c9.max_results = -1 ∧ store_c9.search req_c9 = [fact_c9a] := by
  constructor
  · rfl
  · rfl

/-- C9 witness: the corrected statement instantiated at `max_results = 0`
over the same two-fact store. -/
theorem max_results_zero_empty_witness :
    store_c9.search req_c9z = [] ∧ r_c9.search ("g") req_c9z = [] :=
  max_results_zero_empty store_c9 r_c9 ("g") req_c9z rfl

/-- C10: `register_graph` ignores its `endpoint` and `database` arguments
and builds a backendless store, so on every reachable registry state each
registered entry's store has no backend, serves search through the
in-memory fallback pipeline, and accepts every add-fact request. -/
theorem registered_stores_no_backend :
    (∀ (r : KnowledgeGraphRouter) (id : String) (ep1 ep2 : Option String)
       (db1 db2 : String) (pc : List String) (inh : Bool),
        r.register_graph id ep1 db1 pc inh = r.register_graph id ep2 db2 pc inh) ∧
    (∀ r, Reachable r → ∀ id e, dictGet id r.graphs = some e →
      e.store.graphiti = none ∧
      (∀ req, e.store.search req = spec_search_substring e.store req) ∧
      (∀ (req : AddFactRequest) (fid : String) (now : Nat),
        (e.store.add_fact req fid now).1 = Except.ok fid)) := by
  constructor
  · intro r id ep1 ep2 db1 db2 pc inh
    rfl
  · intro r hr id e hget
    have hnb : e.store.graphiti = none :=
      reachable_noBackend r hr (id, e) (dictGet_mem hget)
    refine ⟨hnb, ?_, ?_⟩
    · intro req
      exact search_none_eq e.store req hnb
    · intro req fid now
      rw [add_fact_none_eq e.store req fid now hnb]

/-- C10 witness: registering `g` with a non-trivial endpoint still yields a
backendless store accepting writes. -/
theorem registered_stores_no_backend_witness :
    entry_c10.store.graphiti = none ∧
    (entry_c10.store.add_fact req_c10 ("f") 0).1 = Except.ok ("f") := by
  have h := registered_stores_no_backend.2 router_c10
    (Reachable.register { graphs := [] } Reachable.init ("g") (some ("bolt://x"))
      "db" [] true)
    "g" entry_c10 rfl
  exact ⟨h.1, h.2.2 req_c10 ("f") 0⟩

end Knowledge
